import Mathlib

/-!
Verification of the subsystem supervisor and lifecycle logic of the
GB28181 restreamer (src/main.py), via a shallow embedding in Lean.

External effects (socket binds, TCP connects, URL parsing, the
filesystem, unit stop calls raising) are modelled as oracle parameters;
all control flow is transcribed from the Python source.
-/

/-! ## Port allocation (`find_available_port`, src/main.py lines 292-307) -/

/-- Loop body of `find_available_port`: `for i in range(max_tries)` tries
`port = start_port + i * 2`; a successful probe bind returns the port at
once, otherwise the loop continues.  `binds p = true` models
`s.bind(("0.0.0.0", p))` succeeding.  The first component is the trace of
ports actually probed, the second the returned value (`none` models the
Python `return None`).
-/
def fap_aux (binds : Nat → Bool) (start_port : Nat) : Nat → Nat → List Nat × Option Nat
  | _, 0 => ([], none)
  | i, Nat.succ fuel =>
    if binds (start_port + i * 2) then
      ([start_port + i * 2], some (start_port + i * 2))
    else ((start_port + i * 2) :: (fap_aux binds start_port (i + 1) fuel).1,
          (fap_aux binds start_port (i + 1) fuel).2)

/-- Model of `find_available_port(start_port, max_tries)` (src/main.py 292-307). -/
def find_available_port (binds : Nat → Bool) (start_port max_tries : Nat) :
    List Nat × Option Nat :=
  fap_aux binds start_port 0 max_tries

theorem fap_aux_succ_pos (binds : Nat → Bool) (s i n : Nat)
    (hb : binds (s + i * 2) = true) :
    fap_aux binds s i (n + 1) = ([s + i * 2], some (s + i * 2)) := by
  simp [fap_aux, hb]

theorem fap_aux_succ_neg (binds : Nat → Bool) (s i n : Nat)
    (hb : binds (s + i * 2) = false) :
    fap_aux binds s i (n + 1) =
      ((s + i * 2) :: (fap_aux binds s (i + 1) n).1, (fap_aux binds s (i + 1) n).2) := by
  simp [fap_aux, hb]

theorem fap_aux_none (binds : Nat → Bool) (s : Nat) :
    ∀ (fuel i : Nat), (fap_aux binds s i fuel).2 = none ↔
      ∀ k, k < fuel → binds (s + (i + k) * 2) = false := by
  intro fuel
  induction fuel with
  | zero => intro i; simp [fap_aux]
  | succ n ih =>
    intro i
    cases hb : binds (s + i * 2) with
    | true =>
      rw [fap_aux_succ_pos binds s i n hb]
      simp only []
      constructor
      · intro h; cases h
      · intro h
        have h0 := h 0 (Nat.succ_pos n)
        rw [Nat.add_zero] at h0
        rw [h0] at hb
        cases hb
    | false =>
      rw [fap_aux_succ_neg binds s i n hb]
      simp only []
      rw [ih (i + 1)]
      constructor
      · intro h k hk
        match k with
        | 0 => rw [Nat.add_zero]; exact hb
        | Nat.succ k' =>
          have hx := h k' (Nat.lt_of_succ_lt_succ hk)
          have harith : i + 1 + k' = i + (k' + 1) := by omega
          rw [harith] at hx
          exact hx
      · intro h k hk
        have hx := h (k + 1) (Nat.succ_lt_succ hk)
        have harith : i + (k + 1) = i + 1 + k := by omega
        rw [harith] at hx
        exact hx

theorem fap_aux_some (binds : Nat → Bool) (s : Nat) :
    ∀ (fuel i : Nat) (p : Nat), (fap_aux binds s i fuel).2 = some p ↔
      ∃ k, k < fuel ∧ p = s + (i + k) * 2 ∧ binds p = true ∧
        ∀ j, j < k → binds (s + (i + j) * 2) = false := by
  intro fuel
  induction fuel with
  | zero => intro i p; simp [fap_aux]
  | succ n ih =>
    intro i p
    cases hb : binds (s + i * 2) with
    | true =>
      rw [fap_aux_succ_pos binds s i n hb]
      simp only []
      constructor
      · intro h
        have hp := (Option.some.inj h).symm
        refine ⟨0, Nat.succ_pos n, by rw [Nat.add_zero]; exact hp, by rw [hp]; exact hb, ?_⟩
        intro j hj; cases hj
      · rintro ⟨k, _, hp, hbp, hmin⟩
        match k with
        | 0 => rw [Nat.add_zero] at hp; rw [hp]
        | Nat.succ k' =>
          have h0 := hmin 0 (Nat.succ_pos k')
          rw [Nat.add_zero] at h0
          rw [h0] at hb
          cases hb
    | false =>
      rw [fap_aux_succ_neg binds s i n hb]
      simp only []
      rw [ih (i + 1)]
      constructor
      · rintro ⟨k, hk, hp, hbp, hmin⟩
        refine ⟨k + 1, Nat.succ_lt_succ hk, ?_, hbp, ?_⟩
        · rw [hp]; congr 1; omega
        · intro j hj
          match j with
          | 0 => rw [Nat.add_zero]; exact hb
          | Nat.succ j' =>
            have hx := hmin j' (Nat.lt_of_succ_lt_succ hj)
            have harith : i + 1 + j' = i + (j' + 1) := by omega
            rw [harith] at hx
            exact hx
      · rintro ⟨k, hk, hp, hbp, hmin⟩
        match k with
        | 0 =>
          exfalso
          rw [Nat.add_zero] at hp
          rw [hp] at hbp
          rw [hbp] at hb
          cases hb
        | Nat.succ k' =>
          refine ⟨k', Nat.lt_of_succ_lt_succ hk, ?_, hbp, ?_⟩
          · rw [hp]; congr 1; omega
          · intro j hj
            have hx := hmin (j + 1) (Nat.succ_lt_succ hj)
            have harith : i + (j + 1) = i + 1 + j := by omega
            rw [harith] at hx
            exact hx

theorem fap_aux_trace_none (binds : Nat → Bool) (s : Nat) :
    ∀ (fuel i : Nat), (fap_aux binds s i fuel).2 = none →
      (fap_aux binds s i fuel).1 = (List.range fuel).map (fun k => s + (i + k) * 2) := by
  intro fuel
  induction fuel with
  | zero => intro i _; simp [fap_aux]
  | succ n ih =>
    intro i h
    cases hb : binds (s + i * 2) with
    | true => rw [fap_aux_succ_pos binds s i n hb] at h; cases h
    | false =>
      rw [fap_aux_succ_neg binds s i n hb] at h ⊢
      simp only [] at h ⊢
      rw [ih (i + 1) h, List.range_succ_eq_map, List.map_cons, List.map_map]
      refine List.cons_eq_cons.mpr ⟨by omega, ?_⟩
      apply List.map_congr_left
      intro a _
      simp only [Function.comp_apply]
      omega

theorem fap_aux_trace_some (binds : Nat → Bool) (s : Nat) :
    ∀ (fuel i p : Nat), (fap_aux binds s i fuel).2 = some p →
      ∃ k, k < fuel ∧ p = s + (i + k) * 2 ∧
        (fap_aux binds s i fuel).1 = (List.range (k + 1)).map (fun j => s + (i + j) * 2) := by
  intro fuel
  induction fuel with
  | zero => intro i p h; simp [fap_aux] at h
  | succ n ih =>
    intro i p h
    cases hb : binds (s + i * 2) with
    | true =>
      rw [fap_aux_succ_pos binds s i n hb] at h ⊢
      refine ⟨0, Nat.succ_pos n, ?_, ?_⟩
      · have := (Option.some.inj h).symm
        rw [Nat.add_zero]
        exact this
      · simp [List.range_succ]
    | false =>
      rw [fap_aux_succ_neg binds s i n hb] at h ⊢
      simp only [] at h ⊢
      obtain ⟨k, hk, hp, htr⟩ := ih (i + 1) p h
      refine ⟨k + 1, Nat.succ_lt_succ hk, ?_, ?_⟩
      · rw [hp]; congr 1; omega
      · rw [htr, List.range_succ_eq_map (k + 1), List.map_cons, List.map_map]
        refine List.cons_eq_cons.mpr ⟨by omega, ?_⟩
        apply List.map_congr_left
        intro a _
        simp only [Function.comp_apply]
        omega

/-- C3: `find_available_port(start, max_tries)` probes exactly the ports
`start, start+2, ..., start+2*(max_tries-1)` in that order (trace
characterisation), returns the first port whose probe bind succeeds, and
returns the `none` sentinel when no probed port binds; in particular with
the even ports 5060-5078 all occupied `find_available_port 5060 10`
returns the sentinel, and when 5064 is the first free port of the probed
sequence it returns 5064.
-/
theorem find_available_port_spec :
    (∀ (binds : Nat → Bool) (s m : Nat),
      (find_available_port binds s m).2 = none ↔ ∀ k, k < m → binds (s + k * 2) = false)
    ∧ (∀ (binds : Nat → Bool) (s m p : Nat),
      (find_available_port binds s m).2 = some p ↔
        ∃ k, k < m ∧ p = s + k * 2 ∧ binds p = true ∧ ∀ j, j < k → binds (s + j * 2) = false)
    ∧ (∀ (binds : Nat → Bool) (s m : Nat), (find_available_port binds s m).2 = none →
        (find_available_port binds s m).1 = (List.range m).map (fun k => s + k * 2))
    ∧ (∀ (binds : Nat → Bool) (s m p : Nat), (find_available_port binds s m).2 = some p →
        ∃ k, k < m ∧ p = s + k * 2 ∧
          (find_available_port binds s m).1 = (List.range (k + 1)).map (fun j => s + j * 2))
    ∧ (∀ binds : Nat → Bool, (∀ p, 5060 ≤ p → p ≤ 5078 → p % 2 = 0 → binds p = false) →
        (find_available_port binds 5060 10).2 = none)
    ∧ (∀ binds : Nat → Bool, binds 5060 = false → binds 5062 = false → binds 5064 = true →
        (find_available_port binds 5060 10).2 = some 5064) := by
  refine ⟨?_, ?_, ?_, ?_, ?_, ?_⟩
  · intro binds s m
    simpa [find_available_port] using fap_aux_none binds s m 0
  · intro binds s m p
    simpa [find_available_port] using fap_aux_some binds s m 0 p
  · intro binds s m h
    rw [find_available_port] at h ⊢
    have := fap_aux_trace_none binds s m 0 h
    simpa using this
  · intro binds s m p h
    rw [find_available_port] at h ⊢
    have := fap_aux_trace_some binds s m 0 p h
    simpa using this
  · intro binds h
    rw [find_available_port, fap_aux_none binds 5060 10 0]
    intro k hk
    exact h (5060 + (0 + k) * 2) (by omega) (by omega) (by omega)
  · intro binds h0 h2 h4
    rw [find_available_port, fap_aux_some binds 5060 10 0]
    refine ⟨2, by omega, by omega, by simpa using h4, ?_⟩
    intro j hj
    interval_cases j
    · simpa using h0
    · simpa using h2

/-- Witness: applying C3's scenario clause at a host where exactly 5064 is free. -/
theorem find_available_port_spec_witness :
    (find_available_port (fun p => p == 5064) 5060 10).2 = some 5064 :=
  find_available_port_spec.2.2.2.2.2 (fun p => p == 5064) (by decide) (by decide) (by decide)

/-! ## Configuration loading (`load_config`, src/main.py lines 90-109) and
the startup sequence of `main` (src/main.py lines 378-574) -/

/-- Errors raised by `load_config`: `FileNotFoundError` for a missing file,
`ValueError` (carrying the offending key) for a missing required key. -/
inductive LoadErr where
  | fileNotFound : LoadErr
  | valueErr (key : String) : LoadErr
  deriving DecidableEq, Repr

/-- The shape of the JSON configuration as far as `load_config` inspects it:
the set of top-level keys and the set of keys of the `sip` block. -/
structure RawConfig where
  keys : List String
  sipKeys : List String
  deriving DecidableEq, Repr

/-- The `required_keys` list (src/main.py line 98). -/
def required_keys : List String := ["sip", "stream_directory"]

/-- The `required_sip_keys` list (src/main.py line 104). -/
def required_sip_keys : List String := ["device_id", "username", "password", "server", "port"]

/-- `load_config` (src/main.py 90-109): raises `FileNotFoundError` when the file
is missing, then raises `ValueError` at the first required top-level key not
in the config, then at the first required SIP key not in `config["sip"]`,
and otherwise returns the config.
-/
def load_config (fileExists : Bool) (cfg : RawConfig) : Except LoadErr RawConfig :=
  if fileExists = false then .error .fileNotFound
  else
    match required_keys.find? (fun k => !(cfg.keys.contains k)) with
    | some k => .error (.valueErr k)
    | none =>
      match required_sip_keys.find? (fun k => !(cfg.sipKeys.contains k)) with
      | some k => .error (.valueErr k)
      | none => .ok cfg

/-- Observable milestones of `main`'s startup sequence (src/main.py 389-514),
in source order, plus `exitCode n` for `sys.exit(n)`. -/
inductive BootEv where
  | configLoaded
  | quickScanDone
  | mediaStreamerStarted
  | liveHandlerStarted
  | sipClientConstructed
  | localServerStarted
  | sipThreadStarted
  | recordingManagerStarted
  | statusThreadStarted
  | exitCode (n : Nat)
  deriving DecidableEq, Repr

/-- Configuration-dependent branches taken by `main` during startup:
whether `rtsp_sources` is non-empty (so `run_rtsp_sources` starts the
live stream handler, src/main.py 116-122) and whether the local SIP
server is effectively enabled after port resolution (src/main.py 450-461,
487-490). -/
structure BootFlags where
  hasRtspSources : Bool
  localSipEnabled : Bool
  deriving DecidableEq, Repr

/-- The startup part of `main` (src/main.py 389-514): `load_config` is the first
statement of the `try` block; a `FileNotFoundError` or `ValueError` it raises
propagates to the handlers at src/main.py 566-571, which call `sys.exit(1)`
before any subsystem is constructed.  On success the subsystems are brought
up in source order.
-/
def main_startup (fileExists : Bool) (cfg : RawConfig) (fl : BootFlags) : List BootEv :=
  match load_config fileExists cfg with
  | .error _ => [.exitCode 1]
  | .ok _ =>
    [.configLoaded, .quickScanDone, .mediaStreamerStarted]
    ++ (if fl.hasRtspSources then [.liveHandlerStarted] else [])
    ++ [.sipClientConstructed]
    ++ (if fl.localSipEnabled then [.localServerStarted] else [])
    ++ [.sipThreadStarted, .recordingManagerStarted, .statusThreadStarted]

/-- The construction/start milestones of the five supervised subsystems among
the boot events (media streamer, live handler, SIP client, local server,
recording manager). -/
def isSubsystemEv : BootEv → Bool
  | .mediaStreamerStarted => true
  | .liveHandlerStarted => true
  | .sipClientConstructed => true
  | .localServerStarted => true
  | .sipThreadStarted => true
  | .recordingManagerStarted => true
  | _ => false

theorem load_config_true (cfg : RawConfig) :
    load_config true cfg =
      (match required_keys.find? (fun k => !(cfg.keys.contains k)) with
      | some k => .error (.valueErr k)
      | none =>
        match required_sip_keys.find? (fun k => !(cfg.sipKeys.contains k)) with
        | some k => .error (.valueErr k)
        | none => .ok cfg) := rfl

/-- C2: a missing configuration file, a missing `stream_directory` key, a missing
`sip` block, or a missing required SIP key (`device_id`, `username`,
`password`, `server`, `port`) makes the process exit with code 1 before any
subsystem is constructed or started: the whole observable startup trace is
`sys.exit(1)`.
-/
theorem main_startup_config_error (fileExists : Bool) (cfg : RawConfig) (fl : BootFlags)
    (h : fileExists = false ∨ "stream_directory" ∉ cfg.keys ∨ "sip" ∉ cfg.keys ∨
      ∃ k ∈ required_sip_keys, k ∉ cfg.sipKeys) :
    main_startup fileExists cfg fl = [BootEv.exitCode 1] ∧
      ∀ e ∈ main_startup fileExists cfg fl, isSubsystemEv e = false := by
  have herr : ∃ e, load_config fileExists cfg = .error e := by
    rcases h with h | h | h | ⟨k, hk, hk2⟩
    · exact ⟨.fileNotFound, by simp [load_config, h]⟩
    · cases fileExists with
      | false => exact ⟨.fileNotFound, by simp [load_config]⟩
      | true =>
        have hfind : required_keys.find? (fun k => !(cfg.keys.contains k)) ≠ none := by
          intro hnone
          rw [List.find?_eq_none] at hnone
          have := hnone "stream_directory" (by simp [required_keys])
          simp at this
          exact h this
        obtain ⟨k', hk'⟩ := Option.ne_none_iff_exists'.mp hfind
        exact ⟨.valueErr k', by rw [load_config_true, hk']⟩
    · cases fileExists with
      | false => exact ⟨.fileNotFound, by simp [load_config]⟩
      | true =>
        have hfind : required_keys.find? (fun k => !(cfg.keys.contains k)) ≠ none := by
          intro hnone
          rw [List.find?_eq_none] at hnone
          have := hnone "sip" (by simp [required_keys])
          simp at this
          exact h this
        obtain ⟨k', hk'⟩ := Option.ne_none_iff_exists'.mp hfind
        exact ⟨.valueErr k', by rw [load_config_true, hk']⟩
    · cases fileExists with
      | false => exact ⟨.fileNotFound, by simp [load_config]⟩
      | true =>
        match hfind : required_keys.find? (fun k => !(cfg.keys.contains k)) with
        | some k' => exact ⟨.valueErr k', by rw [load_config_true, hfind]⟩
        | none =>
          have hfind2 : required_sip_keys.find? (fun k => !(cfg.sipKeys.contains k)) ≠ none := by
            intro hnone
            rw [List.find?_eq_none] at hnone
            have := hnone k hk
            simp at this
            exact hk2 this
          obtain ⟨k', hk'⟩ := Option.ne_none_iff_exists'.mp hfind2
          exact ⟨.valueErr k', by rw [load_config_true, hfind, hk']⟩
  obtain ⟨e, he⟩ := herr
  constructor
  · simp [main_startup, he]
  · intro ev hev
    simp [main_startup, he] at hev
    rw [hev]
    rfl

/-- Witness for C2: a configuration whose `sip` block lacks `password`. -/
theorem main_startup_config_error_witness :
    main_startup true
      ⟨["sip", "stream_directory"], ["device_id", "username", "server", "port"]⟩
      ⟨true, true⟩ = [BootEv.exitCode 1] :=
  (main_startup_config_error true
      ⟨["sip", "stream_directory"], ["device_id", "username", "server", "port"]⟩
      ⟨true, true⟩
      (Or.inr (Or.inr (Or.inr ⟨"password", by decide, by decide⟩)))).1

/-! ## Teardown (`cleanup`, src/main.py lines 232-282) -/

/-- The module-level handle globals referenced by `cleanup`, plus the
`running` flag.  A `true` handle models a non-`None` Python global. -/
structure Globals where
  sip_client : Bool
  local_sip_server : Bool
  live_stream_handler : Bool
  streamer : Bool
  running : Bool
  deriving DecidableEq, Repr

/-- The five stop calls `cleanup` can attempt, in source order:
`sip_client.stop()`, `local_sip_server.stop()`, `cleanup_all_streams()`,
`live_stream_handler.stop()`, `streamer.shutdown()`. -/
inductive StopCall where
  | stopSip
  | stopLocal
  | stopRtsp
  | stopLive
  | stopStreamer
  deriving DecidableEq, Repr

/-- Result of one run of `cleanup`: the global state on return, the stop
calls attempted (in order), and the errors logged by the per-call
`except` blocks. -/
structure CleanupRun where
  state : Globals
  attempted : List StopCall
  errorsLogged : List StopCall
  deriving DecidableEq, Repr

/-- The stop calls one run of `cleanup` attempts, in source order
(src/main.py 239-280): each guarded by the corresponding global being
non-`None`, except `cleanup_all_streams()` which is called unconditionally. -/
def cleanup_attempts (g : Globals) : List StopCall :=
  (if g.sip_client then [StopCall.stopSip] else [])
  ++ (if g.local_sip_server then [StopCall.stopLocal] else [])
  ++ [StopCall.stopRtsp]
  ++ (if g.live_stream_handler then [StopCall.stopLive] else [])
  ++ (if g.streamer then [StopCall.stopStreamer] else [])

/-- `cleanup` (src/main.py 232-282).  `raises c = true` models that unit's stop
call raising an exception.  Every stop call sits in its own `try`/`except`
that logs the error, so `cleanup` always returns; it sets `running = False`
and assigns `None` to no handle global.
-/
def cleanup (raises : StopCall → Bool) (g : Globals) : CleanupRun :=
  { state := { g with running := false }
    attempted := cleanup_attempts g
    errorsLogged := (cleanup_attempts g).filter (fun c => raises c) }

/-- C1 counterexample: `cleanup` contains no already-ran guard, so in a run where
it is invoked twice (signal handler then atexit hook, src/main.py 285-289 and
387) the second invocation re-executes the whole teardown body: with every
handle set it re-attempts all five stop calls, and across the two invocations
`sip_client.stop()` is attempted twice, not once.  (No stop call raising;
every handle non-`None`.)
-/
theorem cleanup_not_idempotent :
    (cleanup (fun _ => false)
        (cleanup (fun _ => false) ⟨true, true, true, true, true⟩).state).attempted =
      [StopCall.stopSip, StopCall.stopLocal, StopCall.stopRtsp,
       StopCall.stopLive, StopCall.stopStreamer] ∧
    (cleanup (fun _ => false)
        (cleanup (fun _ => false) ⟨true, true, true, true, true⟩).state).attempted ≠ [] ∧
    ((cleanup (fun _ => false) ⟨true, true, true, true, true⟩).attempted ++
      (cleanup (fun _ => false)
        (cleanup (fun _ => false) ⟨true, true, true, true, true⟩).state).attempted).count
        StopCall.stopSip = 2 := by
  decide

/-- C1 amended: `cleanup` is idempotent on the global state (it only clears
`running`) and a repeated invocation returns normally without crashing (every
stop call is wrapped), but it is not a no-op: each invocation re-executes the
full teardown body, attempting exactly the same stop calls as the first.
-/
theorem cleanup_reinvocation (raises : StopCall → Bool) (g : Globals) :
    (cleanup raises (cleanup raises g).state).attempted = (cleanup raises g).attempted ∧
    (cleanup raises (cleanup raises g).state).state = (cleanup raises g).state ∧
    (cleanup raises g).state.running = false ∧
    (cleanup raises (cleanup raises g).state).errorsLogged =
      (cleanup raises g).errorsLogged := by
  cases g
  refine ⟨rfl, rfl, rfl, rfl⟩

/-- C5: teardown is fault-isolated: whatever subset of stop calls raise, `cleanup`
attempts exactly the same stop calls in the same order as when none raises
(no unit's failure prevents the rest from being attempted), it returns with
the same final state, and the errors logged are exactly the attempted calls
that raised; `cleanup` never propagates an exception (it is a total function
of the raising pattern).
-/
theorem cleanup_fault_isolated (raises : StopCall → Bool) (g : Globals) :
    (cleanup raises g).attempted = (cleanup (fun _ => false) g).attempted ∧
    (cleanup raises g).state = (cleanup (fun _ => false) g).state ∧
    ∀ c, c ∈ (cleanup raises g).errorsLogged ↔
      c ∈ (cleanup raises g).attempted ∧ raises c = true := by
  refine ⟨rfl, rfl, ?_⟩
  intro c
  simp [cleanup, List.mem_filter]

/-! ## Startup order vs shutdown order (C7) -/

/-- A configuration that passes `load_config` (all required keys present). -/
def fullConfig : RawConfig := ⟨["sip", "stream_directory"], required_sip_keys⟩

/-- The five units whose stop `cleanup` manages. -/
inductive SubUnit where
  | mediaStreamer
  | liveHandler
  | sipClient
  | localServer
  | rtspStreams
  deriving DecidableEq, Repr

/-- The supervised unit whose start call a boot event marks: the media
streamer at `streamer.start_glib_loop()` (src/main.py 442-444), the live
stream handler at `live_stream_handler.start()` (line 122), the local SIP
server at `local_sip_server.start()` (line 490), and the SIP client at
`sip_thread.start()` (lines 493-494).  On-demand RTSP streams have no
startup start call. -/
def startOf : BootEv → Option SubUnit
  | .mediaStreamerStarted => some .mediaStreamer
  | .liveHandlerStarted => some .liveHandler
  | .localServerStarted => some .localServer
  | .sipThreadStarted => some .sipClient
  | _ => none

/-- Units in the order their start calls complete during startup. -/
def startup_order (fl : BootFlags) : List SubUnit :=
  (main_startup true fullConfig fl).filterMap startOf

/-- The unit each of `cleanup`'s stop calls addresses. -/
def unitOfStop : StopCall → SubUnit
  | .stopSip => .sipClient
  | .stopLocal => .localServer
  | .stopRtsp => .rtspStreams
  | .stopLive => .liveHandler
  | .stopStreamer => .mediaStreamer

/-- The handle globals as they stand once startup under `fl` has completed:
`sip_client` and `streamer` are always set, `local_sip_server` and
`live_stream_handler` only on their respective branches. -/
def bootGlobals (fl : BootFlags) : Globals :=
  ⟨true, fl.localSipEnabled, fl.hasRtspSources, true, true⟩

/-- Units in the order `cleanup` attempts their stop calls. -/
def shutdown_order (fl : BootFlags) : List SubUnit :=
  ((cleanup (fun _ => false) (bootGlobals fl)).attempted).map unitOfStop

/-- Predicate `stopsReversed su sd` holds when for every pair of units at positions
`i < j` of the startup list `su`, the later-started unit's stop comes
strictly before the earlier-started unit's stop in the shutdown list `sd`
(both being present in `sd`). -/
def stopsReversed (su sd : List SubUnit) : Bool :=
  (List.range su.length).all (fun i =>
    (List.range su.length).all (fun j =>
      !(decide (i < j)) ||
      (match sd.findIdx? (fun x => decide (x = su.getD j .rtspStreams)),
             sd.findIdx? (fun x => decide (x = su.getD i .rtspStreams)) with
       | some jb, some ia => decide (jb < ia)
       | _, _ => false)))

/-- C7: for every startup configuration (live sources present or not, local SIP
server enabled or not), every unit that completed its start during startup
has its stop attempted by `cleanup`, and for every pair of units A, B with A
started before B, B's stop is attempted strictly before A's stop; moreover
the shutdown attempt order restricted to the units started during startup is
exactly the reverse of the startup order (`cleanup_all_streams()` addresses
only the on-demand RTSP streams, which have no startup start call).
-/
theorem shutdown_reverses_startup :
    ∀ (h l : Bool),
      stopsReversed (startup_order ⟨h, l⟩) (shutdown_order ⟨h, l⟩) = true ∧
      (shutdown_order ⟨h, l⟩).filter
          (fun u => decide (u ∈ startup_order ⟨h, l⟩)) =
        (startup_order ⟨h, l⟩).reverse := by
  decide

/-! ## Loop cancellation latency (C6): `periodic_status_check`
(src/main.py 178-229) and the supervisor liveness loop (src/main.py 521-547) -/

/-- Atomic steps of a loop iteration: a read of the process-wide `running`
flag, a single uninterruptible `time.sleep(d)` call, or flag-independent
body work (status collection / health checks). -/
inductive LoopStep where
  | checkFlag
  | sleep (secs : Nat)
  | body
  deriving DecidableEq, Repr

/-- One non-raising iteration of `periodic_status_check`'s `while running`
loop (src/main.py 190-225): the `while` condition reads the flag, the status
body runs, then `for _ in range(60): if not running: break; time.sleep(1)`
re-reads the flag before each one-second sleep. -/
def status_loop_iteration : List LoopStep :=
  [LoopStep.checkFlag, LoopStep.body]
  ++ (List.range 60).flatMap (fun _ => [LoopStep.checkFlag, LoopStep.sleep 1])

/-- The `except` path of one `periodic_status_check` iteration
(src/main.py 227-229): log the error, then a single `time.sleep(60)`. -/
def status_loop_exception_iteration : List LoopStep :=
  [LoopStep.checkFlag, LoopStep.body, LoopStep.sleep 60]

/-- One iteration of the supervisor's liveness loop (src/main.py 521-547):
`while running` reads the flag, then a single `time.sleep(60)`, then the
SIP-thread and process health checks. -/
def main_loop_iteration : List LoopStep :=
  [LoopStep.checkFlag, LoopStep.sleep 60, LoopStep.body]

/-- Fold for `maxUncheckedSleep`: `cur` is the sleep time accumulated since
the last flag check, `best` the largest such run seen so far. -/
def maxUncheckedSleepAux : List LoopStep → Nat → Nat → Nat
  | [], cur, best => max cur best
  | LoopStep.checkFlag :: rest, cur, best => maxUncheckedSleepAux rest 0 (max cur best)
  | LoopStep.sleep d :: rest, cur, best => maxUncheckedSleepAux rest (cur + d) best
  | LoopStep.body :: rest, cur, best => maxUncheckedSleepAux rest cur best

/-- The largest total sleep a loop iteration performs without re-reading the
`running` flag: an upper bound on how long a cleared flag can go unnoticed
within the iteration. -/
def maxUncheckedSleep (steps : List LoopStep) : Nat :=
  maxUncheckedSleepAux steps 0 0

/-- C6 counterexample: the supervisor's liveness loop sleeps a monolithic 60
seconds between consecutive reads of `running` (src/main.py line 522
`time.sleep(60)`), so it does not check the flag at least once per second:
its largest unchecked sleep is 60 s, not at most about 1 s.
-/
theorem main_loop_not_one_second_checked :
    maxUncheckedSleep main_loop_iteration = 60 ∧
    ¬ maxUncheckedSleep main_loop_iteration ≤ 1 := by
  decide

set_option maxRecDepth 4000 in
/-- C6 amended: the health/status monitor's 60-second period is implemented as
60 cancellable one-second sleeps, each preceded by a read of the `running`
flag (largest unchecked sleep 1 s), but the supervisor's liveness loop
performs a single uninterruptible `time.sleep(60)` between flag reads
(largest unchecked sleep 60 s), and the status monitor's exception path also
sleeps 60 s without re-checking, so only the health monitor's normal path
meets the at-most-about-one-second exit-latency bound.
-/
theorem loop_flag_check_granularity :
    maxUncheckedSleep status_loop_iteration = 1 ∧
    maxUncheckedSleep main_loop_iteration = 60 ∧
    maxUncheckedSleep status_loop_exception_iteration = 60 := by
  decide

/-! ## The supervisor liveness loop and end-of-life catalog regeneration
(C4, src/main.py lines 516-560) -/

/-- A per-iteration snapshot of what the liveness loop reads: the `running`
flag, `sip_thread.is_alive()`, truthiness of `sip_client`,
`hasattr(sip_client, "process")`, and whether `sip_client.process` is
non-`None`. -/
structure MonObs where
  running : Bool
  threadAlive : Bool
  clientTruthy : Bool
  hasProcessAttr : Bool
  processIsSome : Bool
  deriving DecidableEq, Repr

/-- Observable actions of the liveness loop and the post-loop catalog
regeneration.  `restartSipClient` is the deliberately disabled automatic
restart (src/main.py 543-547): it is in the vocabulary but the code never
performs it. -/
inductive MonAct where
  | sleep60
  | logThreadEnded
  | logClientStopped
  | logExitCode
  | logProcessNone
  | logClientInvalid
  | logManualRestart
  | restartSipClient
  | logNoClientForCatalog
  | regenerateCatalog
  | writeDebugArtifact (path : String)
  deriving DecidableEq, Repr

/-- The failure condition of src/main.py line 530:
`not sip_client or not hasattr(sip_client, "process") or sip_client.process is None`. -/
def sipFailureObserved (o : MonObs) : Bool :=
  !o.clientTruthy || !o.hasProcessAttr || !o.processIsSome

/-- The diagnostic logging of src/main.py 533-541: when the client object and
its `process` attribute exist, log the exit code if the process handle is
non-`None`, else log that it is `None`; otherwise log that the client object
is invalid. -/
def monitor_failure_detail (o : MonObs) : List MonAct :=
  if o.clientTruthy && o.hasProcessAttr then
    (if o.processIsSome then [MonAct.logExitCode] else [MonAct.logProcessNone])
  else [MonAct.logClientInvalid]

/-- The post-loop catalog regeneration (src/main.py 549-560): if `sip_client`
is unset only a warning is logged, otherwise the device catalog is
regenerated and the debug XML is written to the fixed path
`catalog_debug.xml`. -/
def monitor_post (o : MonObs) : List MonAct :=
  if o.clientTruthy then
    [MonAct.regenerateCatalog, MonAct.writeDebugArtifact "catalog_debug.xml"]
  else [MonAct.logNoClientForCatalog]

/-- The liveness loop (src/main.py 521-547) run against a finite stream of
per-iteration observations, followed by the post-loop catalog regeneration
(549-560).  Each iteration: the `while` condition reads `running`;
`time.sleep(60)`; if the SIP thread has ended, log and `break`; if the
failure condition of line 530 holds, log the diagnostics, log that no
automatic restart will happen, and `break`.  The second component records
whether the loop exited within the observed iterations ( `false` = the
observation fuel ran out with the loop still running).
-/
def monitor_loop : List MonObs → List MonAct × Bool
  | [] => ([], false)
  | o :: rest =>
    if o.running = false then (monitor_post o, true)
    else if o.threadAlive = false then
      ([MonAct.sleep60, MonAct.logThreadEnded] ++ monitor_post o, true)
    else if sipFailureObserved o then
      ([MonAct.sleep60, MonAct.logClientStopped] ++ monitor_failure_detail o
        ++ [MonAct.logManualRestart] ++ monitor_post o, true)
    else
      (MonAct.sleep60 :: (monitor_loop rest).1, (monitor_loop rest).2)

theorem monitor_loop_no_restart (obs : List MonObs) :
    MonAct.restartSipClient ∉ (monitor_loop obs).1 := by
  induction obs with
  | nil => simp [monitor_loop]
  | cons o rest ih =>
    obtain ⟨r, t, c, a, p⟩ := o
    cases r <;> cases t <;> cases c <;> cases a <;> cases p <;>
      simp_all [monitor_loop, monitor_post, monitor_failure_detail, sipFailureObserved]

/-- The actions of the iteration in which the liveness loop observes a
failure and breaks: sleep, the failure log (with diagnostic detail and the
manual-restart notice on the process-health path), then the post-loop
catalog regeneration. -/
def monitor_break_trace (o : MonObs) : List MonAct :=
  if o.threadAlive = false then
    [MonAct.sleep60, MonAct.logThreadEnded] ++ monitor_post o
  else
    [MonAct.sleep60, MonAct.logClientStopped] ++ monitor_failure_detail o
      ++ [MonAct.logManualRestart] ++ monitor_post o

/-- C4: whenever the liveness loop observes, while running, that the SIP client's
background thread has ended or that the client/process handle indicates a
crash, it logs the failure, exits the loop at once (the resulting trace is
independent of any later observations), never performs an automatic restart
(on any observation stream whatsoever), and on that normal loop exit, with
the client object set, the final actions before teardown are regenerating the
device catalog and writing the debug artifact to the fixed path
`catalog_debug.xml`.
-/
theorem monitor_detects_failure_no_restart (o : MonObs) (rest : List MonObs)
    (hrun : o.running = true)
    (hfail : o.threadAlive = false ∨ sipFailureObserved o = true) :
    monitor_loop (o :: rest) = (monitor_break_trace o, true) ∧
    (MonAct.logThreadEnded ∈ monitor_break_trace o ∨
      MonAct.logClientStopped ∈ monitor_break_trace o) ∧
    (∀ obs : List MonObs, MonAct.restartSipClient ∉ (monitor_loop obs).1) ∧
    (o.clientTruthy = true →
      ∃ pre, monitor_break_trace o =
        pre ++ [MonAct.regenerateCatalog, MonAct.writeDebugArtifact "catalog_debug.xml"]) := by
  refine ⟨?_, ?_, monitor_loop_no_restart, ?_⟩
  · rcases hfail with hf | hf
    · simp [monitor_loop, hrun, hf, monitor_break_trace]
    · by_cases ht : o.threadAlive = false
      · simp [monitor_loop, hrun, ht, monitor_break_trace]
      · simp [monitor_loop, hrun, ht, hf, monitor_break_trace]
  · by_cases ht : o.threadAlive = false <;> simp [monitor_break_trace, ht]
  · intro hc
    by_cases ht : o.threadAlive = false
    · exact ⟨[MonAct.sleep60, MonAct.logThreadEnded],
        by simp [monitor_break_trace, ht, monitor_post, hc]⟩
    · exact ⟨[MonAct.sleep60, MonAct.logClientStopped] ++ monitor_failure_detail o
          ++ [MonAct.logManualRestart],
        by simp [monitor_break_trace, ht, monitor_post, hc]⟩

/-- Witness for C4: the SIP background thread is observed dead on the first
iteration; the loop logs it, exits, regenerates the catalog and writes the
debug artifact. -/
theorem monitor_detects_failure_no_restart_witness :
    monitor_loop [⟨true, false, true, true, true⟩] =
      ([MonAct.sleep60, MonAct.logThreadEnded, MonAct.regenerateCatalog,
        MonAct.writeDebugArtifact "catalog_debug.xml"], true) :=
  ((monitor_detects_failure_no_restart ⟨true, false, true, true, true⟩ []
      rfl (Or.inl rfl)).1).trans (by decide)

/-! ## Live-source processing (`run_rtsp_sources`, src/main.py lines 112-175) -/

/-- An entry of the configured `rtsp_sources` list: either a bare URL string
or a config object with optional `url`, optional `name`, and `enabled`
(already defaulted to `True` as by `rtsp_config.get("enabled", True)`). -/
inductive RtspSource where
  | urlOnly (url : String)
  | srcCfg (url : Option String) (name : Option String) (enabled : Bool)
  deriving DecidableEq, Repr

/-- Observable per-source events of `run_rtsp_sources`.  `probe h p t`
records the reachability probe (`s.settimeout(t)` then
`s.connect_ex((h, p))`, src/main.py 154-158); `prepared` the
"Preparing RTSP source" registration log (line 166) after which streaming is
deferred to on-demand INVITE handling; `warnDuplicateUrl` is in the
vocabulary for stating C8 but is never emitted by the code. -/
inductive RtspEv where
  | skipDisabled (name : String)
  | warnInvalidConfig
  | probe (host : String) (port : Nat) (timeoutSecs : Nat)
  | warnUnreachable (host : String) (port : Nat)
  | prepared (name : String) (url : String)
  | warnDuplicateUrl (url : String)
  | warnSetupError
  deriving DecidableEq, Repr

/-- Oracles for the external networking calls used per source:
`urlparse(url).hostname`, `urlparse(url).port`, and the result of
`socket.connect_ex` (0 means reachable). -/
structure NetEnv where
  hostname : String → Option String
  portOf : String → Option Nat
  connect_ex : String → Nat → Int

/-- Python truthiness of the optional `rtsp_url` (`if not rtsp_url`). -/
def strTruthy : Option String → Bool
  | none => false
  | some s => !(s == "")

/-- Model of `parsed_url.hostname or "127.0.0.1"` (src/main.py 151), with Python
`or`-truthiness (a `None` or empty hostname falls back). -/
def hostFrom (env : NetEnv) (u : String) : String :=
  match env.hostname u with
  | some h => if h == "" then "127.0.0.1" else h
  | none => "127.0.0.1"

/-- Model of `parsed_url.port or 554` (src/main.py 152), with Python `or`-truthiness
(a `None` or zero port falls back). -/
def portFrom (env : NetEnv) (u : String) : Nat :=
  match env.portOf u with
  | some p => if p == 0 then 554 else p
  | none => 554

/-- The common tail of the per-source body (src/main.py 142-166): the
`if not rtsp_url` skip, the 2-second reachability probe, the unreachable
warning (after which the code continues anyway), and the preparation log. -/
def sourceTail (env : NetEnv) (device_name : String) (rtsp_url : Option String) :
    List RtspEv :=
  if strTruthy rtsp_url = false then [RtspEv.warnInvalidConfig]
  else
    (fun url =>
      [RtspEv.probe (hostFrom env url) (portFrom env url) 2]
      ++ (if env.connect_ex (hostFrom env url) (portFrom env url) ≠ 0 then
            [RtspEv.warnUnreachable (hostFrom env url) (portFrom env url)]
          else [])
      ++ [RtspEv.prepared device_name url]) (rtsp_url.getD "")

/-- One iteration of the `for i, rtsp_config in enumerate(rtsp_sources)`
loop (src/main.py 127-173): string entries take the default name; config
objects are skipped (before the url check) when disabled. -/
def setupSource (env : NetEnv) (i : Nat) : RtspSource → List RtspEv
  | .urlOnly u => sourceTail env ("RTSP Camera " ++ toString (i + 1)) (some u)
  | .srcCfg u n e =>
    if e = false then
      [RtspEv.skipDisabled (n.getD ("RTSP Camera " ++ toString (i + 1)))]
    else sourceTail env (n.getD ("RTSP Camera " ++ toString (i + 1))) u

/-- The enumerated loop of `run_rtsp_sources`, starting at index `i`. -/
def run_rtsp_aux (env : NetEnv) : Nat → List RtspSource → List RtspEv
  | _, [] => []
  | i, s :: rest => setupSource env i s ++ run_rtsp_aux env (i + 1) rest

/-- Model of `run_rtsp_sources` (src/main.py 112-175): returns immediately on an
empty source list, otherwise processes every source in order. -/
def run_rtsp_sources (env : NetEnv) (srcs : List RtspSource) : List RtspEv :=
  if srcs.isEmpty then [] else run_rtsp_aux env 0 srcs

/-- The pool of sources registered for on-demand streaming: the
`(name, url)` pairs of the emitted `prepared` events, in order. -/
def preparedPool (evs : List RtspEv) : List (String × String) :=
  evs.filterMap (fun e =>
    match e with
    | .prepared n u => some (n, u)
    | _ => none)

/-- A source survives the enabled/url validation and reaches the probe and
preparation steps. -/
def eligible : RtspSource → Bool
  | .urlOnly u => !(u == "")
  | .srcCfg u _ e => e && strTruthy u

/-- The url a source would be prepared under. -/
def urlOf : RtspSource → String
  | .urlOnly u => u
  | .srcCfg u _ _ => u.getD ""

/-- The device name a source at index `i` is prepared under. -/
def nameOf (i : Nat) : RtspSource → String
  | .urlOnly _ => "RTSP Camera " ++ toString (i + 1)
  | .srcCfg _ n _ => n.getD ("RTSP Camera " ++ toString (i + 1))

theorem preparedPool_append (a b : List RtspEv) :
    preparedPool (a ++ b) = preparedPool a ++ preparedPool b := by
  simp [preparedPool]

theorem preparedPool_sourceTail (env : NetEnv) (nm : String) (u : Option String) :
    preparedPool (sourceTail env nm u) =
      if strTruthy u = true then [(nm, u.getD "")] else [] := by
  cases h : strTruthy u with
  | false => simp [sourceTail, h, preparedPool]
  | true =>
    simp only [sourceTail, h]
    simp only [Bool.true_eq_false, if_false, if_true]
    split <;> simp [preparedPool]

theorem preparedPool_setupSource (env : NetEnv) (i : Nat) (s : RtspSource) :
    preparedPool (setupSource env i s) =
      if eligible s = true then [(nameOf i s, urlOf s)] else [] := by
  cases s with
  | urlOnly u =>
    simp only [setupSource, preparedPool_sourceTail, eligible, nameOf, urlOf, strTruthy]
    rfl
  | srcCfg u n e =>
    cases e with
    | false => simp [setupSource, eligible, preparedPool]
    | true =>
      simp only [setupSource, eligible, nameOf, urlOf]
      simp only [Bool.true_eq_false, if_false, preparedPool_sourceTail, Bool.true_and]
  
theorem preparedPool_run_aux (env : NetEnv) (srcs : List RtspSource) :
    ∀ i, (preparedPool (run_rtsp_aux env i srcs)).map Prod.snd =
      (srcs.filter (fun s => eligible s)).map urlOf := by
  induction srcs with
  | nil => intro i; simp [run_rtsp_aux, preparedPool]
  | cons s rest ih =>
    intro i
    rw [run_rtsp_aux, preparedPool_append, List.map_append, preparedPool_setupSource,
      ih (i + 1)]
    cases he : eligible s with
    | false => simp [List.filter_cons, he]
    | true => simp [List.filter_cons, he]

/-- No event of the per-source body is a duplicate-URL warning. -/
theorem setupSource_no_dup_warn (env : NetEnv) (i : Nat) (s : RtspSource) (x : String) :
    RtspEv.warnDuplicateUrl x ∉ setupSource env i s := by
  cases s with
  | urlOnly u =>
    simp only [setupSource, sourceTail]
    split
    · simp
    · simp
  | srcCfg u n e =>
    cases e with
    | false => simp [setupSource]
    | true =>
      simp only [setupSource, Bool.true_eq_false, if_false, sourceTail]
      split
      · simp
      · simp

theorem run_rtsp_aux_no_dup_warn (env : NetEnv) (srcs : List RtspSource) :
    ∀ i x, RtspEv.warnDuplicateUrl x ∉ run_rtsp_aux env i srcs := by
  induction srcs with
  | nil => intro i x; simp [run_rtsp_aux]
  | cons s rest ih =>
    intro i x
    rw [run_rtsp_aux]
    intro hmem
    rcases List.mem_append.mp hmem with h | h
    · exact setupSource_no_dup_warn env i s x h
    · exact ih (i + 1) x h

/-- C8 counterexample: a configuration with two live sources sharing one URL.
`run_rtsp_sources` (src/main.py 112-175) performs no URL-uniqueness check:
the pool receives one entry per source — two entries for the duplicated URL,
not exactly one — and no duplicate-URL warning is logged.
-/
theorem duplicate_urls_kept_no_warning :
    (preparedPool (run_rtsp_sources
        ⟨fun _ => some "cam.local", fun _ => some 8554, fun _ _ => 0⟩
        [RtspSource.urlOnly "rtsp://cam.local:8554/a",
         RtspSource.urlOnly "rtsp://cam.local:8554/a"]) =
      [("RTSP Camera 1", "rtsp://cam.local:8554/a"),
       ("RTSP Camera 2", "rtsp://cam.local:8554/a")]) ∧
    ((preparedPool (run_rtsp_sources
        ⟨fun _ => some "cam.local", fun _ => some 8554, fun _ _ => 0⟩
        [RtspSource.urlOnly "rtsp://cam.local:8554/a",
         RtspSource.urlOnly "rtsp://cam.local:8554/a"])).filter
        (fun e => e.2 == "rtsp://cam.local:8554/a")).length = 2 ∧
    (run_rtsp_sources
        ⟨fun _ => some "cam.local", fun _ => some 8554, fun _ _ => 0⟩
        [RtspSource.urlOnly "rtsp://cam.local:8554/a",
         RtspSource.urlOnly "rtsp://cam.local:8554/a"]).all
      (fun e => match e with | RtspEv.warnDuplicateUrl _ => false | _ => true) = true := by
  refine ⟨by decide, by decide, by decide⟩

/-- C8 amended: `run_rtsp_sources` performs no duplicate-URL detection: the pool
keeps one entry per source passing the enabled/url validation, in listed
order (so two sources with identical URLs yield two pool entries, the
first-listed first), no duplicate-URL warning is ever logged, and duplicates
are never fatal — the url sequence of the pool is exactly the url sequence of
the validated sources for every configuration.
-/
theorem run_rtsp_sources_keeps_all_sources (env : NetEnv) (srcs : List RtspSource) :
    (preparedPool (run_rtsp_sources env srcs)).map Prod.snd =
      (srcs.filter (fun s => eligible s)).map urlOf ∧
    ∀ x, RtspEv.warnDuplicateUrl x ∉ run_rtsp_sources env srcs := by
  constructor
  · cases srcs with
    | nil => simp [run_rtsp_sources, preparedPool]
    | cons s rest =>
      rw [run_rtsp_sources]
      simp only [List.isEmpty_cons, Bool.false_eq_true, if_false]
      exact preparedPool_run_aux env (s :: rest) 0
  · intro x
    cases srcs with
    | nil => simp [run_rtsp_sources]
    | cons s rest =>
      rw [run_rtsp_sources]
      simp only [List.isEmpty_cons, Bool.false_eq_true, if_false]
      exact run_rtsp_aux_no_dup_warn env (s :: rest) 0 x

theorem sourceTail_probe_timeout (env : NetEnv) (nm : String) (u : Option String)
    (h : String) (p t : Nat) :
    RtspEv.probe h p t ∈ sourceTail env nm u → t = 2 := by
  intro hmem
  unfold sourceTail at hmem
  split at hmem
  · simp at hmem
  · by_cases hcx :
      env.connect_ex (hostFrom env (u.getD "")) (portFrom env (u.getD "")) ≠ 0
    · simp [hcx] at hmem
      exact hmem.2.2
    · simp [hcx] at hmem
      exact hmem.2.2

theorem run_rtsp_aux_probe_timeout (env : NetEnv) (srcs : List RtspSource) :
    ∀ (i : Nat) (h : String) (p t : Nat),
      RtspEv.probe h p t ∈ run_rtsp_aux env i srcs → t = 2 := by
  induction srcs with
  | nil => intro i h p t hm; simp [run_rtsp_aux] at hm
  | cons s rest ih =>
    intro i h p t hm
    rw [run_rtsp_aux] at hm
    rcases List.mem_append.mp hm with hm | hm
    · cases s with
      | urlOnly u =>
        simp only [setupSource] at hm
        exact sourceTail_probe_timeout env _ _ h p t hm
      | srcCfg u n e =>
        cases e with
        | false => simp [setupSource] at hm
        | true =>
          simp only [setupSource, Bool.true_eq_false, if_false] at hm
          exact sourceTail_probe_timeout env _ _ h p t hm
    · exact ih (i + 1) h p t hm

/-- C9: for a configured live source with a (non-empty) url, the reachability
probe is a single TCP connect with a 2-second timeout to the host and port
parsed from the URL, the port defaulting to 554 when the URL carries none
(every probe event carries timeout 2); a failed probe (`connect_ex` non-zero)
produces an unreachable warning and the source is still prepared for later
on-demand use — the probe failure removes nothing and the remaining sources
are processed next; a source whose url is missing produces only the
per-source invalid-config warning, is skipped, and the loop continues with
the remaining sources.
-/
theorem live_source_probe_policy (env : NetEnv) (nm u : String) (hu : u ≠ "") :
    (sourceTail env nm (some u) =
      [RtspEv.probe (hostFrom env u) (portFrom env u) 2]
      ++ (if env.connect_ex (hostFrom env u) (portFrom env u) ≠ 0 then
            [RtspEv.warnUnreachable (hostFrom env u) (portFrom env u)]
          else [])
      ++ [RtspEv.prepared nm u]) ∧
    (env.connect_ex (hostFrom env u) (portFrom env u) ≠ 0 →
      sourceTail env nm (some u) =
        [RtspEv.probe (hostFrom env u) (portFrom env u) 2,
         RtspEv.warnUnreachable (hostFrom env u) (portFrom env u),
         RtspEv.prepared nm u]) ∧
    (env.portOf u = none → portFrom env u = 554) ∧
    (sourceTail env nm none = [RtspEv.warnInvalidConfig]) ∧
    (∀ (srcs : List RtspSource) (i : Nat) (h : String) (p t : Nat),
      RtspEv.probe h p t ∈ run_rtsp_aux env i srcs → t = 2) ∧
    (∀ (i : Nat) (s : RtspSource) (rest : List RtspSource),
      run_rtsp_aux env i (s :: rest) = setupSource env i s ++ run_rtsp_aux env (i + 1) rest) := by
  have hne : (u == "") = false := by
    cases hb : u == ""
    · rfl
    · exact absurd (by simpa using hb) hu
  refine ⟨?_, ?_, ?_, ?_, ?_, ?_⟩
  · simp [sourceTail, strTruthy, hne]
  · intro hcx
    simp [sourceTail, strTruthy, hne, hcx]
  · intro hp
    simp [portFrom, hp]
  · simp [sourceTail, strTruthy]
  · exact fun srcs i h p t => run_rtsp_aux_probe_timeout env srcs i h p t
  · intro i s rest
    rfl

/-- Witness for C9: an unreachable source with a portless URL is probed at
port 554 with a 2-second timeout, warned about, and still prepared. -/
theorem live_source_probe_policy_witness :
    sourceTail ⟨fun _ => some "cam9", fun _ => none, fun _ _ => 1⟩ "Cam 9"
        (some "rtsp://cam9/s") =
      [RtspEv.probe "cam9" 554 2, RtspEv.warnUnreachable "cam9" 554,
       RtspEv.prepared "Cam 9" "rtsp://cam9/s"] :=
  ((live_source_probe_policy ⟨fun _ => some "cam9", fun _ => none, fun _ _ => 1⟩
      "Cam 9" "rtsp://cam9/s" (by decide)).2.1 (by decide)).trans (by decide)

/-! ## The startup quick video scan (C10, src/main.py lines 396-424) -/

/-- A directory tree as walked by `os.walk`: a name, the plain files in the
directory, and its subdirectories.  Paths are modelled as segment lists;
`os.path.join(root, f)` is `root ++ [f]`. -/
inductive FSTree where
  | dir (name : String) (files : List String) (subdirs : List FSTree)
  deriving Repr

/-- The directory name of a tree node. -/
def FSTree.dirName : FSTree → String
  | .dir n _ _ => n

/-- The recognised video extensions (src/main.py line 405). -/
def video_exts : List String :=
  [".mp4", ".avi", ".mkv", ".mov", ".flv", ".wmv", ".ts", ".m4v"]

/-- The characters of `file.lower()` (ASCII lowercasing per character). -/
def lowerChars (s : String) : List Char := s.data.map Char.toLower

/-- Whether `l` ends with `suffix`, at the character level. -/
def chars_end_with (l suffix : List Char) : Bool :=
  decide (suffix = l.drop (l.length - suffix.length))

/-- Model of `d.startswith(".")` (src/main.py line 402). -/
def hiddenName (s : String) : Bool :=
  match s.data with
  | [] => false
  | c :: _ => decide (c = '.')

/-- Model of `file.lower().endswith((".mp4", ...))` (src/main.py line 405). -/
def isVideoFile (f : String) : Bool :=
  video_exts.any (fun e => chars_end_with (lowerChars f) e.data)

/-- Model of `os.walk(top)` restricted to what the scan observes: the `(root, files)`
pairs in top-down order, with the in-place pruning
`dirs[:] = [d for d in dirs if not d.startswith(".")]` (src/main.py 402)
preventing descent into hidden directories.  `depth` bounds the recursion
depth; any `depth` at least the height of the tree yields the full walk. -/
def walkFiles : Nat → FSTree → List String → List (List String × List String)
  | 0, _, _ => []
  | depth + 1, .dir _ files subs, path =>
    (path, files) :: (subs.flatMap fun s =>
      if hiddenName s.dirName then []
      else walkFiles depth s (path ++ [s.dirName]))

/-- The inner per-directory loop (src/main.py 403-409): append matching
files as joined paths, counting them, and `break` once the count reaches 5. -/
def dirSample (root : List String) : List String → Nat → List (List String)
  | [], _ => []
  | f :: rest, cnt =>
    if isVideoFile f then
      (if cnt + 1 ≥ 5 then [root ++ [f]]
       else (root ++ [f]) :: dirSample root rest (cnt + 1))
    else dirSample root rest cnt

/-- The outer loop over `os.walk` (src/main.py 401-411): after each
directory, `break` once the accumulated sample holds at least 20 paths. -/
def quickScanAux : List (List String × List String) → List (List String) → List (List String)
  | [], acc => acc
  | (root, files) :: rest, acc =>
    if (acc ++ dirSample root files 0).length ≥ 20 then acc ++ dirSample root files 0
    else quickScanAux rest (acc ++ dirSample root files 0)

/-- The quick scan filling `config["sample_videos"]` (src/main.py 396-424):
walks the configured stream directory (to depth `d`); any exception during
the scan (`walkOk = false`) yields the empty list and startup continues. -/
def quick_scan (walkOk : Bool) (d : Nat) (t : FSTree) (top : List String) :
    List (List String) :=
  if walkOk then quickScanAux (walkFiles d t top) [] else []

theorem dirSample_length_le (root : List String) :
    ∀ (files : List String) (cnt : Nat), cnt ≤ 4 →
      (dirSample root files cnt).length ≤ 5 - cnt := by
  intro files
  induction files with
  | nil => intro cnt _; simp [dirSample]
  | cons f rest ih =>
    intro cnt hcnt
    cases hv : isVideoFile f with
    | true =>
      by_cases h5 : cnt + 1 ≥ 5
      · simp [dirSample, hv, h5]
        omega
      · simp only [dirSample, hv]
        rw [if_pos trivial, if_neg h5]
        have := ih (cnt + 1) (by omega)
        simp only [List.length_cons]
        omega
    | false =>
      simp only [dirSample, hv]
      rw [if_neg (by simp)]
      exact ih cnt hcnt

theorem dirSample_mem (root : List String) :
    ∀ (files : List String) (cnt : Nat) (p : List String),
      p ∈ dirSample root files cnt → ∃ f, p = root ++ [f] ∧ isVideoFile f = true := by
  intro files
  induction files with
  | nil => intro cnt p hp; simp [dirSample] at hp
  | cons f rest ih =>
    intro cnt p hp
    cases hv : isVideoFile f with
    | true =>
      by_cases h5 : cnt + 1 ≥ 5
      · simp [dirSample, hv, h5] at hp
        exact ⟨f, hp, hv⟩
      · simp only [dirSample, hv] at hp
        rw [if_pos trivial, if_neg h5] at hp
        rcases List.mem_cons.mp hp with hp | hp
        · exact ⟨f, hp, hv⟩
        · exact ih (cnt + 1) p hp
    | false =>
      simp only [dirSample, hv] at hp
      rw [if_neg (by simp)] at hp
      exact ih cnt p hp

theorem quickScanAux_length_le (triples : List (List String × List String)) :
    ∀ acc : List (List String), acc.length < 20 →
      (quickScanAux triples acc).length ≤ 24 := by
  induction triples with
  | nil =>
    intro acc hacc
    simp only [quickScanAux]
    omega
  | cons rf rest ih =>
    obtain ⟨root, files⟩ := rf
    intro acc hacc
    have hd : (dirSample root files 0).length ≤ 5 := by
      simpa using dirSample_length_le root files 0 (by omega)
    by_cases h20 : (acc ++ dirSample root files 0).length ≥ 20
    · simp only [quickScanAux]
      rw [if_pos h20, List.length_append]
      omega
    · simp only [quickScanAux]
      rw [if_neg h20]
      apply ih
      omega

theorem quickScanAux_mem (triples : List (List String × List String)) :
    ∀ (acc : List (List String)) (p : List String),
      p ∈ quickScanAux triples acc →
      p ∈ acc ∨ ∃ root files, (root, files) ∈ triples ∧ p ∈ dirSample root files 0 := by
  induction triples with
  | nil =>
    intro acc p hp
    simp only [quickScanAux] at hp
    exact Or.inl hp
  | cons rf rest ih =>
    obtain ⟨root, files⟩ := rf
    intro acc p hp
    by_cases h20 : (acc ++ dirSample root files 0).length ≥ 20
    · simp only [quickScanAux] at hp
      rw [if_pos h20] at hp
      rcases List.mem_append.mp hp with hp | hp
      · exact Or.inl hp
      · exact Or.inr ⟨root, files, List.mem_cons_self _ _, hp⟩
    · simp only [quickScanAux] at hp
      rw [if_neg h20] at hp
      rcases ih (acc ++ dirSample root files 0) p hp with hin | ⟨r, fs, htr, hds⟩
      · rcases List.mem_append.mp hin with hin | hin
        · exact Or.inl hin
        · exact Or.inr ⟨root, files, List.mem_cons_self _ _, hin⟩
      · exact Or.inr ⟨r, fs, List.mem_cons_of_mem _ htr, hds⟩

theorem walkFiles_roots :
    ∀ (d : Nat) (t : FSTree) (path r fs : List String),
      (r, fs) ∈ walkFiles d t path → ∃ s, r = path ++ s := by
  intro d
  induction d with
  | zero => intro t path r fs h; simp [walkFiles] at h
  | succ n ih =>
    intro t path r fs h
    match t with
    | .dir nm files subs =>
      rw [walkFiles] at h
      rcases List.mem_cons.mp h with h | h
      · exact ⟨[], by simpa using (congrArg Prod.fst h)⟩
      · rw [List.mem_flatMap] at h
        obtain ⟨s, _, hmem⟩ := h
        by_cases hh : hiddenName s.dirName = true
        · rw [if_pos hh] at hmem; cases hmem
        · rw [if_neg hh] at hmem
          obtain ⟨ss, hss⟩ := ih s (path ++ [s.dirName]) r fs hmem
          exact ⟨[s.dirName] ++ ss, by rw [hss, List.append_assoc]⟩

/-- A stream directory holding 4 videos at top level and four subdirectories
with 4, 4, 4 and 6 videos respectively. -/
def scanCounterTree : FSTree :=
  .dir "videos"
    ["a1.mp4", "a2.mp4", "a3.mp4", "a4.mp4"]
    [.dir "d1" ["b1.mp4", "b2.mp4", "b3.mp4", "b4.mp4"] [],
     .dir "d2" ["c1.mp4", "c2.mp4", "c3.mp4", "c4.mp4"] [],
     .dir "d3" ["e1.mp4", "e2.mp4", "e3.mp4", "e4.mp4"] [],
     .dir "d4" ["f1.mp4", "f2.mp4", "f3.mp4", "f4.mp4", "f5.mp4", "f6.mp4"] []]

set_option maxRecDepth 8000 in
/-- C10 counterexample: the 20-path cap is only checked at directory boundaries
(src/main.py 410-411), after the per-directory contribution has been
appended, so the sample can exceed 20: on a tree whose directories contribute
4+4+4+4 videos (total 16, below the cap) and whose next directory contributes
its 5-video maximum, the quick scan returns 21 paths, violating the claimed
at-most-20 bound.
-/
theorem quick_scan_exceeds_twenty :
    (quick_scan true 3 scanCounterTree ["videos"]).length = 21 ∧
    ¬ (quick_scan true 3 scanCounterTree ["videos"]).length ≤ 20 := by
  refine ⟨by decide, by decide⟩

/-- C10 amended: the quick scan takes at most 5 files from any single directory
and stops at the first directory boundary where the total reaches 20, so it
returns at most 24 paths (not at most 20); every returned path lies under the
configured stream directory and its file name ends, case-insensitively, in
one of the recognised video extensions; and when the scan raises, the sample
list is empty and startup continues.
-/
theorem quick_scan_bounds (walkOk : Bool) (d : Nat) (t : FSTree) (top : List String) :
    (quick_scan walkOk d t top).length ≤ 24 ∧
    (∀ p ∈ quick_scan walkOk d t top, ∃ s f, p = top ++ s ++ [f] ∧ isVideoFile f = true) ∧
    (∀ (root files : List String), (dirSample root files 0).length ≤ 5) ∧
    quick_scan false d t top = [] := by
  refine ⟨?_, ?_, ?_, rfl⟩
  · cases walkOk with
    | false => simp [quick_scan]
    | true =>
      simp only [quick_scan, if_pos rfl]
      exact quickScanAux_length_le (walkFiles d t top) [] (by simp)
  · intro p hp
    cases walkOk with
    | false => simp [quick_scan] at hp
    | true =>
      simp only [quick_scan, if_pos rfl] at hp
      rcases quickScanAux_mem (walkFiles d t top) [] p hp with hin | ⟨root, files, htr, hds⟩
      · cases hin
      · obtain ⟨f, hpf, hvf⟩ := dirSample_mem root files 0 p hds
        obtain ⟨s, hr⟩ := walkFiles_roots d t top root files htr
        refine ⟨s, f, ?_, hvf⟩
        rw [hpf, hr, List.append_assoc]
  · intro root files
    simpa using dirSample_length_le root files 0 (by omega)

/-- Witness for C10's amended claim: a one-video directory, whose single
result decomposes as required. -/
theorem quick_scan_bounds_witness :
    ∃ s f, ["v", "x.mp4"] = ["v"] ++ s ++ [f] ∧ isVideoFile f = true :=
  (quick_scan_bounds true 1 (.dir "v" ["x.mp4"] []) ["v"]).2.1 ["v", "x.mp4"] (by decide)
